import Mathlib

/-!
# Shallow embedding of the tb-perf benchmark client

Definitions are translated from the Rust sources of the repository:
`client/src/workload.rs`, `client/src/postgres.rs`, `client/src/metrics.rs`
and `common/src/config.rs`.  Machine integers (`u64`) are modelled as `ℕ`
with explicit `% 2^64` where wrapping matters; fallible Rust code returning
`Result` is modelled with `Except`; the RNG/Zipf sampler composite is
modelled as an oracle stream of sampled values.
-/

set_option maxRecDepth 8000

namespace TbPerf

/-- Modulus of Rust `u64` arithmetic (the literal is `2 ^ 64`). -/
def U64_MOD : ℕ := 18446744073709551616

lemma U64_MOD_eq_pow : U64_MOD = 2 ^ 64 := by norm_num [U64_MOD]

/-! ## Account selection (workload.rs, `AccountSelector`) -/

/-- `AccountSelector::select_account` (workload.rs:30-34).

`z` is the Zipf sample cast to `u64` (`self.zipf.sample(rng) as u64`); the
code computes `z - 1` with `u64` wrapping semantics (release build) and then
clamps with `.min(self.num_accounts - 1)`.  Wrapping subtraction of 1 is
`(z + 2^64 - 1) % 2^64` on the `u64` value `z % 2^64`. -/
def selectAccount (num_accounts : ℕ) (z : ℕ) : ℕ :=
  let account := (z % U64_MOD + (U64_MOD - 1)) % U64_MOD
  min account (num_accounts - 1)

/-- The rejection-resampling loop of `select_transfer_accounts`
(workload.rs:42-44): starting at stream index `i`, resample `dest` while it
equals `source`.  `fuel` bounds the number of samples inspected so the
function is total; `none` models a run of the loop that has not terminated
within `fuel` samples. -/
def resampleDest (num_accounts : ℕ) (s : ℕ → ℕ) (source : ℕ) : ℕ → ℕ → Option ℕ
  | _, 0 => none
  | i, fuel + 1 =>
    let dest := selectAccount num_accounts (s i)
    if dest = source then resampleDest num_accounts s source (i + 1) fuel
    else some dest

/-- `AccountSelector::select_transfer_accounts` (workload.rs:37-47).
`s` is the stream of successive Zipf samples (cast to `u64`) that the RNG
produces: `s 0` is used for `source`, `s 1, s 2, …` for the `dest`
rejection loop. -/
def selectTransferAccounts (num_accounts : ℕ) (s : ℕ → ℕ) (fuel : ℕ) :
    Option (ℕ × ℕ) :=
  match resampleDest num_accounts s (selectAccount num_accounts (s 0)) 1 fuel with
  | some dest => some (selectAccount num_accounts (s 0), dest)
  | none => none

/-- The clamp `min account (num_accounts - 1)` keeps every selected id
strictly below `num_accounts` whenever `num_accounts ≥ 1`. -/
lemma selectAccount_lt (num_accounts z : ℕ) (h : 1 ≤ num_accounts) :
    selectAccount num_accounts z < num_accounts :=
  lt_of_le_of_lt (min_le_right _ _) (Nat.sub_lt h Nat.one_pos)

lemma resampleDest_spec (num_accounts : ℕ) (s : ℕ → ℕ) (source : ℕ) :
    ∀ i fuel d, resampleDest num_accounts s source i fuel = some d →
      (1 ≤ num_accounts → d < num_accounts) ∧ d ≠ source := by
  intro i fuel
  induction fuel generalizing i with
  | zero => intro d hd; simp [resampleDest] at hd
  | succ n ih =>
    intro d hd
    simp only [resampleDest] at hd
    split at hd
    · exact ih (i + 1) d hd
    · have hde : selectAccount num_accounts (s i) = d := Option.some.inj hd
      have hne : selectAccount num_accounts (s i) ≠ source := by assumption
      refine ⟨fun h => ?_, ?_⟩
      · rw [← hde]; exact selectAccount_lt num_accounts (s i) h
      · rw [← hde]; exact hne

/-- Concrete Zipf-sample stream for `num_accounts = 2`: the sampler yields
`1` for the source draw and `2` for every subsequent draw.  Both values are
legitimate Zipf samples over `{1, 2}` (positive probability for every
exponent ≥ 0). -/
def exStream : ℕ → ℕ := fun i => if i = 0 then 1 else 2

/-- C1 counterexample: with `num_accounts = 2` and the realizable sample
stream `exStream`, `select_transfer_accounts` returns the pair `(0, 1)` —
the ids are zero-based (`[0, num_accounts - 1]`), so the source id `0` is
not in `[1, num_accounts]` as the claim states. -/
theorem select_transfer_accounts_not_one_based :
    selectTransferAccounts 2 exStream 10 = some (0, 1) ∧ ¬ (1 ≤ (0 : ℕ)) := by
  constructor
  · decide
  · decide

/-- C1 (amended): for every `num_accounts ≥ 2` and every sample stream, if
the rejection loop terminates then `select_transfer_accounts` returns a
pair `(source, dest)` with both ids in `[0, num_accounts - 1]` and
`source ≠ dest`. -/
theorem select_transfer_accounts_range_zero_based
    (num_accounts : ℕ) (s : ℕ → ℕ) (fuel : ℕ) (hn : 2 ≤ num_accounts)
    (src dst : ℕ)
    (h : selectTransferAccounts num_accounts s fuel = some (src, dst)) :
    src < num_accounts ∧ dst < num_accounts ∧ src ≠ dst := by
  unfold selectTransferAccounts at h
  cases hres : resampleDest num_accounts s (selectAccount num_accounts (s 0)) 1 fuel with
  | none => rw [hres] at h; exact Option.noConfusion h
  | some d =>
    rw [hres] at h
    have hp : (selectAccount num_accounts (s 0), d) = (src, dst) := Option.some.inj h
    rw [Prod.mk.injEq] at hp
    obtain ⟨hsrc, hdst⟩ := hp
    have hd := resampleDest_spec num_accounts s _ 1 fuel d hres
    have h1 : 1 ≤ num_accounts := le_trans (by norm_num) hn
    refine ⟨?_, ?_, ?_⟩
    · rw [← hsrc]; exact selectAccount_lt num_accounts (s 0) h1
    · rw [← hdst]; exact hd.1 h1
    · intro hsd
      exact hd.2 (hdst.trans (hsd.symm.trans hsrc.symm))

/-- Witness for the amended C1 theorem at a concrete input. -/
theorem select_transfer_accounts_range_zero_based_witness :
    (2 ≤ 2 ∧ selectTransferAccounts 2 exStream 10 = some (0, 1)) ∧
      (0 < 2 ∧ 1 < 2 ∧ (0 : ℕ) ≠ 1) :=
  ⟨⟨by decide, by decide⟩,
    select_transfer_accounts_range_zero_based 2 exStream 10 (by decide) 0 1 (by decide)⟩

/-- C9: `select_account` is total and always in range: for every
`num_accounts ≥ 1` and every value `z` the Zipf cast can yield (including
`0`, where the `u64` subtraction wraps to `2^64 - 1`), the min-clamp keeps
the returned id strictly below `num_accounts`. -/
theorem select_account_always_in_range (num_accounts z : ℕ)
    (h : 1 ≤ num_accounts) : selectAccount num_accounts z < num_accounts :=
  selectAccount_lt num_accounts z h

/-- Witness for C9 at the wrapping input `z = 0` (where `0u64 - 1` wraps). -/
theorem select_account_always_in_range_witness :
    1 ≤ 5 ∧ selectAccount 5 0 < 5 :=
  ⟨by decide, select_account_always_in_range 5 0 (by decide)⟩

/-! ## Transfer outcomes and the outcome recorder
(workload.rs `TransferResult`, `record_transfer_result`; metrics.rs) -/

/-- `TransferResult` (workload.rs:73-82). -/
inductive TransferResult where
  | Success
  | InsufficientBalance
  | AccountNotFound
  | Failed
deriving DecidableEq, Repr

/-- Error value produced by the PostgreSQL layer (`anyhow::Error` in the
code); the only property the client inspects is whether it is a
serialization failure (SQLSTATE 40001), captured by this flag. -/
structure PgError where
  serializationFailure : Bool
deriving DecidableEq, Repr

/-- `TestPhase` (metrics.rs:148-151). -/
inductive TestPhase where
  | Warmup
  | Measurement
deriving DecidableEq, Repr

/-- Counter and histogram state of `WorkloadMetrics` (metrics.rs:12-25);
the latency histogram is modelled as the list of recorded samples. -/
structure MetricsState where
  completed : ℕ
  rejected : ℕ
  failed : ℕ
  dropped : ℕ
  latencySamples : List ℕ
deriving DecidableEq, Repr

/-- `WorkloadMetrics::record_completed` (metrics.rs:91-95). -/
def record_completed (m : MetricsState) (latency_us : ℕ) : MetricsState :=
  { m with completed := m.completed + 1,
           latencySamples := m.latencySamples ++ [latency_us] }

/-- `WorkloadMetrics::record_rejected` (metrics.rs:98-102). -/
def record_rejected (m : MetricsState) (latency_us : ℕ) : MetricsState :=
  { m with rejected := m.rejected + 1,
           latencySamples := m.latencySamples ++ [latency_us] }

/-- `WorkloadMetrics::record_failed` (metrics.rs:105-108). -/
def record_failed (m : MetricsState) : MetricsState :=
  { m with failed := m.failed + 1 }

/-- `WorkloadMetrics::record_dropped` (metrics.rs:111-114). -/
def record_dropped (m : MetricsState) : MetricsState :=
  { m with dropped := m.dropped + 1 }

/-- `record_transfer_result` (workload.rs:170-190): dispatches on the
transfer result, updating the metrics state and the shared
`completed_count`.  The `phase` argument only labels the emitted samples in
the code and does not change which counters move. -/
def record_transfer_result (result : Except PgError TransferResult)
    (latency_us : ℕ) (_phase : TestPhase) (m : MetricsState)
    (completed_count : ℕ) : MetricsState × ℕ :=
  match result with
  | .ok .Success => (record_completed m latency_us, completed_count + 1)
  | .ok .InsufficientBalance => (record_rejected m latency_us, completed_count + 1)
  | .ok .AccountNotFound => (record_failed m, completed_count)
  | .ok .Failed => (record_failed m, completed_count)
  | .error _ => (record_failed m, completed_count)

/-- C4: the outcome recorder applies exactly the stated table: `Success`
bumps `completed_count` and the completed counter and records a latency
sample; `InsufficientBalance` bumps `completed_count` and the rejected
counter and records a latency sample; `AccountNotFound`, `Failed` and a
propagated executor error each bump only the failed counter, leave
`completed_count` unchanged and record no latency sample. -/
theorem record_transfer_result_table (latency_us : ℕ) (phase : TestPhase)
    (m : MetricsState) (cc : ℕ) (e : PgError) :
    record_transfer_result (.ok .Success) latency_us phase m cc =
      ({ m with completed := m.completed + 1,
                latencySamples := m.latencySamples ++ [latency_us] }, cc + 1) ∧
    record_transfer_result (.ok .InsufficientBalance) latency_us phase m cc =
      ({ m with rejected := m.rejected + 1,
                latencySamples := m.latencySamples ++ [latency_us] }, cc + 1) ∧
    record_transfer_result (.ok .AccountNotFound) latency_us phase m cc =
      ({ m with failed := m.failed + 1 }, cc) ∧
    record_transfer_result (.ok .Failed) latency_us phase m cc =
      ({ m with failed := m.failed + 1 }, cc) ∧
    record_transfer_result (.error e) latency_us phase m cc =
      ({ m with failed := m.failed + 1 }, cc) :=
  ⟨rfl, rfl, rfl, rfl, rfl⟩

/-! ## Serialization-failure retry loop
(postgres.rs `MAX_RETRIES`, `BASE_RETRY_DELAY_MS`, `is_serialization_failure`,
`execute_transfer_with_retry`) -/

/-- `MAX_RETRIES` (postgres.rs:14). -/
def MAX_RETRIES : ℕ := 5

/-- `BASE_RETRY_DELAY_MS` (postgres.rs:16). -/
def BASE_RETRY_DELAY_MS : ℕ := 10

/-- `is_serialization_failure` (postgres.rs:244-254): whether the error
carries SQLSTATE 40001 (or matches the textual fallback), captured by the
error's flag. -/
def is_serialization_failure (e : PgError) : Bool := e.serializationFailure

/-- The loop of `execute_transfer_with_retry` (postgres.rs:264-288).

`attempts k` is the outcome of the call to `execute_transfer` made when the
`retries` counter equals `k` (the counter increments exactly once before
each re-attempt).  The returned list collects the backoff sleeps performed,
in milliseconds (`BASE_RETRY_DELAY_MS * 2u64.pow(retries)` after the
increment).  `fuel` bounds the loop so the function is structural; since
the loop re-enters only while `retries < MAX_RETRIES`,
`MAX_RETRIES + 1` fuel always suffices (see `retryLoop_some_of_fuel`). -/
def retryLoop (attempts : ℕ → Except PgError TransferResult) :
    ℕ → ℕ → List ℕ → Option (Except PgError TransferResult × List ℕ)
  | 0, _, _ => none
  | fuel + 1, retries, delays =>
    match attempts retries with
    | .ok result => some (.ok result, delays)
    | .error e =>
      if is_serialization_failure e = true ∧ retries < MAX_RETRIES then
        retryLoop attempts fuel (retries + 1)
          (delays ++ [BASE_RETRY_DELAY_MS * 2 ^ (retries + 1)])
      else if MAX_RETRIES ≤ retries then some (.ok .Failed, delays)
      else some (.error e, delays)

/-- `execute_transfer_with_retry` (postgres.rs:257-288): the loop starting
with `retries = 0` and no sleeps performed. -/
def execute_transfer_with_retry (attempts : ℕ → Except PgError TransferResult) :
    Option (Except PgError TransferResult × List ℕ) :=
  retryLoop attempts (MAX_RETRIES + 1) 0 []

/-- The fuel `MAX_RETRIES + 1` is never exhausted: the loop always returns. -/
lemma retryLoop_some_of_fuel (attempts : ℕ → Except PgError TransferResult) :
    ∀ fuel retries delays, MAX_RETRIES + 1 ≤ fuel + retries →
      retries ≤ MAX_RETRIES →
      (retryLoop attempts fuel retries delays).isSome := by
  intro fuel
  induction fuel with
  | zero => intro retries delays h1 h2; simp [MAX_RETRIES] at h1 h2; omega
  | succ n ih =>
    intro retries delays h1 h2
    cases ha : attempts retries with
    | ok r => simp [retryLoop, ha]
    | error e =>
      simp only [retryLoop, ha]
      by_cases hc : is_serialization_failure e = true ∧ retries < MAX_RETRIES
      · rw [if_pos hc]
        exact ih (retries + 1) _ (by omega) hc.2
      · rw [if_neg hc]
        by_cases hm : MAX_RETRIES ≤ retries
        · rw [if_pos hm]; simp
        · rw [if_neg hm]; simp

/-- Serialization-failure step: while `retries < MAX_RETRIES`, a
serialization failure sleeps `BASE_RETRY_DELAY_MS * 2 ^ (retries + 1)` ms
and re-enters the loop with the counter incremented. -/
lemma retryLoop_serial_step (attempts : ℕ → Except PgError TransferResult)
    (fuel retries : ℕ) (delays : List ℕ)
    (ha : attempts retries = .error ⟨true⟩) (hr : retries < MAX_RETRIES) :
    retryLoop attempts (fuel + 1) retries delays =
      retryLoop attempts fuel (retries + 1)
        (delays ++ [BASE_RETRY_DELAY_MS * 2 ^ (retries + 1)]) := by
  simp [retryLoop, ha, is_serialization_failure, hr]

/-- Budget exhausted: at `retries = MAX_RETRIES` any further error returns
`Ok(TransferResult::Failed)`. -/
lemma retryLoop_exhausted (attempts : ℕ → Except PgError TransferResult)
    (fuel : ℕ) (delays : List ℕ) (e : PgError)
    (ha : attempts MAX_RETRIES = .error e) :
    retryLoop attempts (fuel + 1) MAX_RETRIES delays =
      some (.ok .Failed, delays) := by
  simp [retryLoop, ha, is_serialization_failure]

/-- C2 counterexample: when every underlying attempt fails with a
serialization failure, the loop performs backoff sleeps of
20, 40, 80, 160, 320 ms — the first delay is 20 ms
(`BASE_RETRY_DELAY_MS * 2 ^ 1`, the counter is incremented before the delay
is computed), not 10 ms as the claim states — and then returns
`Ok(TransferResult::Failed)`. -/
theorem retry_first_delay_not_ten :
    execute_transfer_with_retry (fun _ => .error ⟨true⟩)
        = some (.ok .Failed, [20, 40, 80, 160, 320]) ∧
      (20 : ℕ) ≠ 10 := by
  constructor
  · rfl
  · decide

/-- C2 (amended): on persistent serialization failures the relational
executor retries up to 5 times with exponential backoff whose first delay
is 20 ms and which doubles on each subsequent retry (20, 40, 80, 160,
320 ms), and once the retry budget is exhausted it returns
`Ok(TransferResult::Failed)` rather than an error. -/
theorem retry_backoff_schedule (attempts : ℕ → Except PgError TransferResult)
    (h : ∀ k, k ≤ MAX_RETRIES → attempts k = .error ⟨true⟩) :
    execute_transfer_with_retry attempts
      = some (.ok .Failed, [20, 40, 80, 160, 320]) := by
  have h0 := h 0 (by decide)
  have h1 := h 1 (by decide)
  have h2 := h 2 (by decide)
  have h3 := h 3 (by decide)
  have h4 := h 4 (by decide)
  have h5 := h 5 (by decide)
  exact (((((retryLoop_serial_step attempts 5 0 [] h0 (by decide)).trans
    (retryLoop_serial_step attempts 4 1 [20] h1 (by decide))).trans
    (retryLoop_serial_step attempts 3 2 [20, 40] h2 (by decide))).trans
    (retryLoop_serial_step attempts 2 3 [20, 40, 80] h3 (by decide))).trans
    (retryLoop_serial_step attempts 1 4 [20, 40, 80, 160] h4 (by decide))).trans
    (retryLoop_exhausted attempts 0 [20, 40, 80, 160, 320] ⟨true⟩ h5)

/-- Witness for the amended C2 theorem at the constant-failure oracle. -/
theorem retry_backoff_schedule_witness :
    execute_transfer_with_retry (fun _ => .error ⟨true⟩)
      = some (.ok .Failed, [20, 40, 80, 160, 320]) :=
  retry_backoff_schedule (fun _ => .error ⟨true⟩) (fun _ _ => rfl)

/-- Invariant behind C10: from any loop state, an error is propagated as
`Err` only if it is not a serialization failure and the retry counter is
still below `MAX_RETRIES` when it occurs. -/
lemma retryLoop_error_inv (attempts : ℕ → Except PgError TransferResult) :
    ∀ fuel retries delays e ds,
      retryLoop attempts fuel retries delays = some (.error e, ds) →
      is_serialization_failure e = false ∧
        ∃ r, retries ≤ r ∧ r < MAX_RETRIES ∧ attempts r = .error e := by
  intro fuel
  induction fuel with
  | zero => intro retries delays e ds hd; simp [retryLoop] at hd
  | succ n ih =>
    intro retries delays e ds hd
    cases ha : attempts retries with
    | ok r =>
      simp [retryLoop, ha] at hd
    | error e' =>
      simp only [retryLoop, ha] at hd
      by_cases hc : is_serialization_failure e' = true ∧ retries < MAX_RETRIES
      · rw [if_pos hc] at hd
        obtain ⟨hs, r, hr1, hr2, hr3⟩ := ih (retries + 1) _ e ds hd
        exact ⟨hs, r, by omega, hr2, hr3⟩
      · rw [if_neg hc] at hd
        by_cases hm : MAX_RETRIES ≤ retries
        · rw [if_pos hm] at hd
          simp at hd
        · rw [if_neg hm] at hd
          simp at hd
          obtain ⟨he, _⟩ := hd
          subst he
          refine ⟨?_, retries, le_refl _, by omega, ha⟩
          rcases hb : is_serialization_failure e' with _ | _
          · rfl
          · exact absurd ⟨hb, by omega⟩ hc

/-- C10: an underlying error is propagated as `Err` only while fewer than
`MAX_RETRIES = 5` retries have been consumed (and only if it is not a
serialization failure); once the retry counter has reached 5, any further
error — serialization failure or not — is converted to
`Ok(TransferResult::Failed)` instead of propagating. -/
theorem retry_error_propagation_bound
    (attempts : ℕ → Except PgError TransferResult) :
    (∀ e delays, execute_transfer_with_retry attempts = some (.error e, delays) →
        is_serialization_failure e = false ∧
          ∃ r, r < MAX_RETRIES ∧ attempts r = .error e) ∧
    (∀ fuel delays e ds,
        retryLoop attempts (fuel + 1) MAX_RETRIES delays ≠ some (.error e, ds)) := by
  constructor
  · intro e delays hd
    obtain ⟨hs, r, _, hr2, hr3⟩ := retryLoop_error_inv attempts _ 0 [] e delays hd
    exact ⟨hs, r, hr2, hr3⟩
  · intro fuel delays e ds hd
    obtain ⟨_, r, hr1, hr2, _⟩ := retryLoop_error_inv attempts _ _ delays e ds hd
    omega

/-- Witness for C10 at a concrete non-serialization constant-failure oracle:
at `retries = MAX_RETRIES` the loop does not propagate the error. -/
theorem retry_error_propagation_bound_witness :
    retryLoop (fun _ => .error ⟨false⟩) 1 MAX_RETRIES []
      ≠ some (.error ⟨false⟩, []) :=
  (retry_error_propagation_bound (fun _ => .error ⟨false⟩)).2 0 [] ⟨false⟩ []

/-! ## Batched executor
(postgres.rs `MAX_BATCH_SIZE`, `BatchedPostgresExecutor::new`,
`batch_processor`, `execute_batch`) -/

/-- `MAX_BATCH_SIZE` (postgres.rs:345). -/
def MAX_BATCH_SIZE : ℕ := 8190

/-- Capacity of the bounded mpsc channel created in
`BatchedPostgresExecutor::new` (postgres.rs:371):
`mpsc::channel(MAX_BATCH_SIZE * 2)`. -/
def batch_channel_capacity : ℕ := MAX_BATCH_SIZE * 2

/-- `TransferRequest` (postgres.rs:348-353): a request triple plus its
single-use reply handle, identified here by a handle id. -/
structure TransferRequest where
  source : ℕ
  dest : ℕ
  amount : ℕ
  response_tx : ℕ
deriving DecidableEq, Repr

/-- The opportunistic non-blocking drain of `batch_processor`
(postgres.rs:420-432): while the batch is below `MAX_BATCH_SIZE`, `try_recv`
another request; `pending` models the requests currently queued, and an
empty `pending` models `TryRecvError` (`Empty` or `Disconnected`), both of
which end the drain.  Returns the collected batch and the untouched rest of
the queue. -/
def drain_pending : List TransferRequest → List TransferRequest →
    List TransferRequest × List TransferRequest
  | batch, pending =>
    if batch.length < MAX_BATCH_SIZE then
      match pending with
      | [] => (batch, [])
      | req :: rest => drain_pending (batch ++ [req]) rest
    else (batch, pending)
termination_by _b pending => pending.length

/-- Batch collection in `batch_processor` (postgres.rs:415-435): block for
one request `first`, then drain opportunistically. -/
def collect_batch (first : TransferRequest) (pending : List TransferRequest) :
    List TransferRequest × List TransferRequest :=
  drain_pending [first] pending

lemma drain_pending_eq (batch pending : List TransferRequest)
    (h : batch.length ≤ MAX_BATCH_SIZE) :
    (drain_pending batch pending).1 =
      batch ++ pending.take (MAX_BATCH_SIZE - batch.length) := by
  induction pending generalizing batch with
  | nil =>
    rw [drain_pending]
    by_cases hlt : batch.length < MAX_BATCH_SIZE
    · rw [if_pos hlt]; simp
    · rw [if_neg hlt]; simp
  | cons req rest ih =>
    rw [drain_pending]
    by_cases hlt : batch.length < MAX_BATCH_SIZE
    · rw [if_pos hlt]
      rw [ih (batch ++ [req]) (by simp; omega)]
      have hk : MAX_BATCH_SIZE - (batch ++ [req]).length
          = MAX_BATCH_SIZE - batch.length - 1 := by simp; omega
      have hs : MAX_BATCH_SIZE - batch.length
          = (MAX_BATCH_SIZE - batch.length - 1) + 1 := by omega
      rw [hk, hs, List.take_succ_cons, List.append_assoc, List.singleton_append]
      simp
    · rw [if_neg hlt]
      have : MAX_BATCH_SIZE - batch.length = 0 := by omega
      simp [this]

/-- C7: the batched executor's request queue capacity is exactly
`2 × MAX_BATCH_SIZE = 16380`, and every batch the aggregator dispatches is
`first` followed by the queued requests drained only until the queue is
empty or the batch reaches `MAX_BATCH_SIZE = 8190`; in particular its size
is at least 1 and at most 8190. -/
theorem batch_capacity_and_bounds (first : TransferRequest)
    (pending : List TransferRequest) :
    batch_channel_capacity = 16380 ∧
    MAX_BATCH_SIZE = 8190 ∧
    (collect_batch first pending).1
      = first :: pending.take (MAX_BATCH_SIZE - 1) ∧
    1 ≤ (collect_batch first pending).1.length ∧
    (collect_batch first pending).1.length ≤ MAX_BATCH_SIZE := by
  have he : (collect_batch first pending).1
      = first :: pending.take (MAX_BATCH_SIZE - 1) := by
    have := drain_pending_eq [first] pending
      (by simp [MAX_BATCH_SIZE])
    simpa [collect_batch] using this
  refine ⟨rfl, rfl, he, ?_, ?_⟩
  · rw [he]; simp
  · rw [he, List.length_cons, List.length_take]
    have hmin : min (MAX_BATCH_SIZE - 1) pending.length ≤ MAX_BATCH_SIZE - 1 :=
      Nat.min_le_left _ _
    have hpos : 1 ≤ MAX_BATCH_SIZE := by norm_num [MAX_BATCH_SIZE]
    omega

/-- Outcome of `execute_batch_transfer` (postgres.rs:506-564) as seen by
`execute_batch`: either the decoded per-row results or an error (connection
acquisition, begin, query, or commit failure). -/
def BatchCallResult : Type := Except PgError (List TransferResult)

/-- `execute_batch` (postgres.rs:459-503): sends one outcome through each
request's reply handle.  The returned list is the sequence of
`(response_tx, outcome)` sends performed (`batch.drain(..)` empties the
batch vector).  On a result-count mismatch or a failed batch call, every
request receives `TransferResult::Failed`. -/
def execute_batch (batch : List TransferRequest)
    (results : Except PgError (List TransferResult)) :
    List (ℕ × TransferResult) :=
  match results with
  | .ok result_vec =>
    if result_vec.length ≠ batch.length then
      batch.map (fun req => (req.response_tx, TransferResult.Failed))
    else
      (batch.zip result_vec).map (fun p => (p.1.response_tx, p.2))
  | .error _ => batch.map (fun req => (req.response_tx, TransferResult.Failed))

lemma zip_map_response_tx (batch : List TransferRequest)
    (rv : List TransferResult) (h : rv.length = batch.length) :
    ((batch.zip rv).map
        (fun p => (p.1.response_tx, p.2))).map Prod.fst
      = batch.map TransferRequest.response_tx := by
  induction batch generalizing rv with
  | nil => simp
  | cons b bs ih =>
    cases rv with
    | nil => simp at h
    | cons r rs =>
      simp only [List.length_cons] at h
      simp [ih rs (by omega)]

/-- C3: for every batch of size B, `execute_batch` performs exactly B sends,
one through each of the B reply handles in order; and if the result array's
length differs from B, or the batch call itself failed, every one of the B
handles receives the `Failed` outcome. -/
theorem execute_batch_outcomes (batch : List TransferRequest)
    (results : Except PgError (List TransferResult)) :
    (execute_batch batch results).length = batch.length ∧
    (execute_batch batch results).map Prod.fst
      = batch.map TransferRequest.response_tx ∧
    ((∀ rv, results = Except.ok rv → rv.length ≠ batch.length) →
      execute_batch batch results
        = batch.map (fun req => (req.response_tx, TransferResult.Failed))) := by
  cases results with
  | error e =>
    refine ⟨by simp [execute_batch], ?_, fun _ => rfl⟩
    simp [execute_batch]
  | ok rv =>
    by_cases hlen : rv.length = batch.length
    · refine ⟨?_, ?_, ?_⟩
      · simp only [execute_batch, if_neg (by omega : ¬rv.length ≠ batch.length)]
        rw [List.length_map, List.length_zip, hlen, min_self]
      · simp only [execute_batch, if_neg (by omega : ¬rv.length ≠ batch.length)]
        exact zip_map_response_tx batch rv hlen
      · intro hmis
        exact absurd hlen (hmis rv rfl)
    · refine ⟨?_, ?_, fun _ => ?_⟩ <;>
        simp [execute_batch, hlen]

/-- Witness for C3 at a concrete failed batch call. -/
theorem execute_batch_outcomes_witness :
    execute_batch [⟨1, 2, 3, 7⟩] (Except.error ⟨false⟩)
      = [(7, TransferResult.Failed)] :=
  (execute_batch_outcomes [⟨1, 2, 3, 7⟩] (Except.error ⟨false⟩)).2.2
    (fun _ h => Except.noConfusion h)

/-! ## Phase controller
(workload.rs `PhaseController::run_phases`, `get_current_phase`) -/

/-- The store operations `run_phases` performs on the shared flags:
`phase_flag.store(true)` (workload.rs:129) then `stop_flag.store(true)`
(workload.rs:138). -/
inductive FlagWrite where
  | phaseStore
  | stopStore
deriving DecidableEq, Repr

/-- The complete write trace of one `run_phases` call (workload.rs:123-141):
both flags start `false` (workload.rs:101-102), and `run_phases` is the only
writer. -/
def run_phases_writes : List FlagWrite := [FlagWrite.phaseStore, FlagWrite.stopStore]

/-- The two shared atomic flags. -/
structure FlagState where
  phase_flag : Bool
  stop_flag : Bool
deriving DecidableEq, Repr

/-- Initial flag state (workload.rs:101-102): both `false`. -/
def initialFlags : FlagState := ⟨false, false⟩

/-- Effect of one store. -/
def applyWrite : FlagState → FlagWrite → FlagState
  | st, FlagWrite.phaseStore => { st with phase_flag := true }
  | st, FlagWrite.stopStore => { st with stop_flag := true }

/-- Flag state observed by a read that happens after the first `k` writes of
`run_phases` have been published.  Reads at later times observe a `k` that
can only grow. -/
def flagsAfter (k : ℕ) : FlagState :=
  (run_phases_writes.take k).foldl applyWrite initialFlags

/-- `get_current_phase` (workload.rs:158-164). -/
def get_current_phase (phase_flag : Bool) : TestPhase :=
  if phase_flag then TestPhase.Measurement else TestPhase.Warmup

lemma flagsAfter_phase (k : ℕ) : (flagsAfter k).phase_flag = true ↔ 1 ≤ k := by
  match k with
  | 0 => simp [flagsAfter, run_phases_writes, initialFlags]
  | 1 => simp [flagsAfter, run_phases_writes, applyWrite, initialFlags]
  | (n + 2) =>
    have h2 : run_phases_writes.length ≤ n + 2 := by simp [run_phases_writes]
    unfold flagsAfter
    rw [List.take_of_length_le h2]
    simp only [run_phases_writes, List.foldl, applyWrite]
    constructor
    · intro _; omega
    · intro _; trivial

lemma flagsAfter_stop (k : ℕ) : (flagsAfter k).stop_flag = true ↔ 2 ≤ k := by
  match k with
  | 0 => simp [flagsAfter, run_phases_writes, initialFlags]
  | 1 => simp [flagsAfter, run_phases_writes, applyWrite, initialFlags]
  | (n + 2) =>
    have h2 : run_phases_writes.length ≤ n + 2 := by simp [run_phases_writes]
    unfold flagsAfter
    rw [List.take_of_length_le h2]
    simp only [run_phases_writes, List.foldl, applyWrite]
    constructor
    · intro _; omega
    · intro _; trivial

lemma get_current_phase_measurement (b : Bool) :
    get_current_phase b = TestPhase.Measurement ↔ b = true := by
  cases b <;> simp [get_current_phase]

/-- C6: phase progression is monotone: once a read of `phase_flag` returns
`Measurement`, no later read returns `Warmup`; once a read of `stop_flag`
returns `true`, no later read returns `false`.  Moreover `run_phases`
stores `true` into each flag exactly once, in the order `phase_flag` then
`stop_flag`. -/
theorem phase_progression_monotone :
    (∀ j k : ℕ, j ≤ k →
      (get_current_phase (flagsAfter j).phase_flag = TestPhase.Measurement →
        get_current_phase (flagsAfter k).phase_flag = TestPhase.Measurement) ∧
      ((flagsAfter j).stop_flag = true → (flagsAfter k).stop_flag = true)) ∧
    run_phases_writes.count FlagWrite.phaseStore = 1 ∧
    run_phases_writes.count FlagWrite.stopStore = 1 ∧
    run_phases_writes = [FlagWrite.phaseStore, FlagWrite.stopStore] := by
  refine ⟨?_, by decide, by decide, rfl⟩
  intro j k hjk
  constructor
  · intro hj
    rw [get_current_phase_measurement] at hj ⊢
    rw [flagsAfter_phase] at hj ⊢
    omega
  · intro hj
    rw [flagsAfter_stop] at hj ⊢
    omega

/-- Witness for C6 at the concrete reads `j = 1`, `k = 2`. -/
theorem phase_progression_monotone_witness :
    get_current_phase (flagsAfter 2).phase_flag = TestPhase.Measurement :=
  (phase_progression_monotone.1 1 2 (by decide)).1 (by decide)

/-! ## Fixed-rate (open-loop) runner
(workload.rs `WorkloadRunner::run_fixed_rate` submitter loop,
`fixed_rate_transfer_task`) -/

/-- Action taken by one iteration of the fixed-rate submitter loop. -/
inductive SubmitAction where
  | dropped (phase : TestPhase)
  | submitted (scheduled : ℕ) (phase : TestPhase) (source dest amount : ℕ)
deriving DecidableEq, Repr

/-- One iteration of the fixed-rate submitter loop (workload.rs:324-364), in
program order: sleep until the grid time, capture
`scheduled_time := next_submit`, advance the grid
`next_submit += expected_interval`, read the phase, then check the
concurrency limit (`in_flight >= max_concurrency`) and either drop the
request or submit it carrying `scheduled_time`.  Returns the new grid time
and the action. -/
def submitter_iteration (next_submit expected_interval : ℕ) (phase_flag : Bool)
    (in_flight max_concurrency : ℕ) (source dest amount : ℕ) :
    ℕ × SubmitAction :=
  let scheduled_time := next_submit
  let next_submit' := next_submit + expected_interval
  let current_phase := get_current_phase phase_flag
  if max_concurrency ≤ in_flight then
    (next_submit', SubmitAction.dropped current_phase)
  else
    (next_submit', SubmitAction.submitted scheduled_time current_phase source dest amount)

/-- `fixed_rate_transfer_task` (workload.rs:387-416): when the executor
finishes at clock `finish`, the task records the result with latency
`finish - scheduled` (elapsed from the scheduled grid time, not from the
moment execution actually started) and the phase read at record time. -/
def fixed_rate_transfer_task (scheduled finish : ℕ) (phase_flag : Bool)
    (result : Except PgError TransferResult) (m : MetricsState) (cc : ℕ) :
    MetricsState × ℕ :=
  record_transfer_result result (finish - scheduled)
    (get_current_phase phase_flag) m cc

/-- C5: in the fixed-rate runner, a submitted request carries a scheduled
stamp equal to the grid time `next_submit` at iteration entry — captured
before the concurrency check, for every value of `in_flight` — the grid
advances by the fixed interval, and the latency recorded for an executed
transfer is measured from that scheduled grid time (`finish - next_submit`),
independent of when execution actually started. -/
theorem fixed_rate_scheduled_semantics
    (next_submit interval : ℕ) (pf : Bool) (in_flight maxc s d a : ℕ)
    (sched : ℕ) (ph : TestPhase) (src dst amt : ℕ)
    (h : (submitter_iteration next_submit interval pf in_flight maxc s d a).2
        = SubmitAction.submitted sched ph src dst amt) :
    sched = next_submit ∧
    (submitter_iteration next_submit interval pf in_flight maxc s d a).1
      = next_submit + interval ∧
    (∀ finish result m cc,
        fixed_rate_transfer_task sched finish pf result m cc
          = record_transfer_result result (finish - next_submit)
              (get_current_phase pf) m cc) := by
  simp only [submitter_iteration] at h ⊢
  by_cases hc : maxc ≤ in_flight
  · rw [if_pos hc] at h
    simp at h
  · rw [if_neg hc] at h
    simp only [SubmitAction.submitted.injEq] at h
    obtain ⟨h1, _, _, _, _⟩ := h
    subst h1
    refine ⟨rfl, by rw [if_neg hc], ?_⟩
    intro finish result m cc
    rfl

/-- Witness for C5 at a concrete submitted iteration. -/
theorem fixed_rate_scheduled_semantics_witness :
    (100 : ℕ) = 100 ∧
    (submitter_iteration 100 10 false 0 5 1 2 3).1 = 100 + 10 ∧
    (∀ finish result m cc,
        fixed_rate_transfer_task 100 finish false result m cc
          = record_transfer_result result (finish - 100)
              (get_current_phase false) m cc) :=
  fixed_rate_scheduled_semantics 100 10 false 0 5 1 2 3 100
    TestPhase.Warmup 1 2 3 (by decide)

/-! ## Configuration validation (common/src/config.rs) -/

/-- Model of an `f64` value as inspected by `Config::validate`: the only
operations the code applies are the comparison `< 0.0`, `is_nan` and
`is_infinite`, so a value is one of NaN, the two infinities, or a finite
number (represented exactly by a rational). -/
inductive F64 where
  | nan
  | posInf
  | negInf
  | finite (q : ℚ)
deriving DecidableEq

/-- Rust `x < 0.0` (false for NaN). -/
def F64.lt_zero : F64 → Bool
  | F64.nan => false
  | F64.posInf => false
  | F64.negInf => true
  | F64.finite q => decide (q < 0)

/-- Rust `f64::is_nan`. -/
def F64.is_nan : F64 → Bool
  | F64.nan => true
  | _ => false

/-- Rust `f64::is_infinite`. -/
def F64.is_infinite : F64 → Bool
  | F64.posInf => true
  | F64.negInf => true
  | _ => false

/-- `WorkloadConfig` (config.rs:17-33). -/
structure WorkloadConfig where
  test_mode : String
  concurrency : Option ℕ
  target_rate : Option ℕ
  max_concurrency : Option ℕ
  num_accounts : ℕ
  zipfian_exponent : F64
  initial_balance : ℕ
  min_transfer_amount : ℕ
  max_transfer_amount : ℕ
  warmup_duration_secs : ℕ
  test_duration_secs : ℕ
deriving DecidableEq

/-- `TestMode` (config.rs:61-70). -/
inductive TestMode where
  | MaxThroughput (concurrency : ℕ)
  | FixedRate (target_rate : ℕ) (max_concurrency : ℕ)
deriving DecidableEq

/-- `WorkloadConfig::test_mode()` (config.rs:36-58). -/
def WorkloadConfig.testMode (w : WorkloadConfig) : Except String TestMode :=
  if w.test_mode = "max_throughput" then
    match w.concurrency with
    | some c => Except.ok (TestMode.MaxThroughput c)
    | none => Except.error "max_throughput mode requires concurrency field"
  else if w.test_mode = "fixed_rate" then
    match w.target_rate with
    | none => Except.error "fixed_rate mode requires target_rate field"
    | some tr =>
      match w.max_concurrency with
      | none => Except.error "fixed_rate mode requires max_concurrency field"
      | some mc => Except.ok (TestMode.FixedRate tr mc)
  else Except.error "Invalid test_mode"

/-- `DatabaseType` (config.rs:88-93). -/
inductive DatabaseType where
  | PostgreSQL
  | TigerBeetle
deriving DecidableEq

/-- `DatabaseConfig` (config.rs:82-86). -/
structure DatabaseConfig where
  kind : DatabaseType
deriving DecidableEq

/-- `IsolationLevel` (config.rs:105-111). -/
inductive IsolationLevel where
  | ReadCommitted
  | RepeatableRead
  | Serializable
deriving DecidableEq

/-- `PostgresqlConfig` (config.rs:95-103). -/
structure PostgresqlConfig where
  isolation_level : IsolationLevel
  connection_pool_size : ℕ
  connection_pool_min_idle : Option ℕ
  batched_mode : Bool
deriving DecidableEq

/-- `TigerBeetleConfig` (config.rs:125-128). -/
structure TigerBeetleConfig where
  cluster_addresses : List String
deriving DecidableEq

/-- `DeploymentType` (config.rs:146-151). -/
inductive DeploymentType where
  | Local
  | Cloud
deriving DecidableEq

/-- `DeploymentConfig` (config.rs:130-144). -/
structure DeploymentConfig where
  kind : DeploymentType
  num_db_nodes : ℕ
  num_client_nodes : Option ℕ
  aws_region : Option String
  db_instance_type : Option String
  client_instance_type : Option String
  measure_network_latency : Bool
deriving DecidableEq

/-- `CoordinatorConfig` (config.rs:153-160). -/
structure CoordinatorConfig where
  test_runs : ℕ
  max_variance_threshold : F64
  max_error_rate : F64
  metrics_export_path : String
  keep_grafana_running : Bool
deriving DecidableEq

/-- `MonitoringConfig` (config.rs:162-168). -/
structure MonitoringConfig where
  grafana_port : ℕ
  prometheus_port : ℕ
  otel_collector_port : ℕ
deriving DecidableEq

/-- `Config` (config.rs:4-15). -/
structure Config where
  workload : WorkloadConfig
  database : DatabaseConfig
  postgresql : Option PostgresqlConfig
  tigerbeetle : Option TigerBeetleConfig
  deployment : DeploymentConfig
  coordinator : CoordinatorConfig
  monitoring : MonitoringConfig
deriving DecidableEq

/-- Database-specific validation block of `Config::validate`
(config.rs:189-214). -/
def validate_database (c : Config) : Except String Unit :=
  match c.database.kind with
  | DatabaseType.PostgreSQL =>
    match c.postgresql with
    | none =>
      Except.error "PostgreSQL database type requires [postgresql] configuration section"
    | some pg =>
      if pg.connection_pool_size = 0 then
        Except.error "connection_pool_size must be >= 1"
      else Except.ok ()
  | DatabaseType.TigerBeetle =>
    match c.tigerbeetle with
    | none =>
      Except.error "TigerBeetle database type requires [tigerbeetle] configuration section"
    | some tb =>
      if tb.cluster_addresses.isEmpty then
        Except.error "cluster_addresses must not be empty"
      else Except.ok ()

/-- Deployment-specific validation block of `Config::validate`
(config.rs:217-224). -/
def validate_deployment (c : Config) : Except String Unit :=
  match c.deployment.kind with
  | DeploymentType.Cloud =>
    match c.deployment.num_client_nodes with
    | none => Except.error "Cloud deployment requires num_client_nodes to be specified"
    | some _ =>
      match c.deployment.aws_region with
      | none => Except.error "Cloud deployment requires aws_region to be specified"
      | some _ => Except.ok ()
  | DeploymentType.Local => Except.ok ()

/-- Workload and coordinator validation block of `Config::validate`
(config.rs:226-267), in source order. -/
def validate_workload_rules (c : Config) : Except String Unit :=
  if c.workload.num_accounts < 2 then
    Except.error "num_accounts must be >= 2"
  else if c.workload.test_duration_secs = 0 then
    Except.error "test_duration_secs must be >= 1"
  else if c.workload.min_transfer_amount > c.workload.max_transfer_amount then
    Except.error "min_transfer_amount must be <= max_transfer_amount"
  else if c.workload.zipfian_exponent.lt_zero then
    Except.error "zipfian_exponent must be >= 0.0"
  else if c.workload.zipfian_exponent.is_nan || c.workload.zipfian_exponent.is_infinite then
    Except.error "zipfian_exponent must be a finite number"
  else if c.coordinator.max_variance_threshold.is_nan
      || c.coordinator.max_variance_threshold.is_infinite then
    Except.error "max_variance_threshold must be a finite number"
  else if c.coordinator.test_runs = 0 then
    Except.error "test_runs must be >= 1"
  else Except.ok ()

/-- `Config::validate` (config.rs:184-268): the four blocks in source order,
stopping at the first error. -/
def Config.validate (c : Config) : Except String Unit :=
  match c.workload.testMode with
  | Except.error e => Except.error e
  | Except.ok _ =>
    match validate_database c with
    | Except.error e => Except.error e
    | Except.ok _ =>
      match validate_deployment c with
      | Except.error e => Except.error e
      | Except.ok _ => validate_workload_rules c

/-- Spec rule (C8): the backend sub-section required by `database.type` is
present, with nonzero pool size / nonempty address list. -/
def database_section_ok (c : Config) : Bool :=
  match c.database.kind with
  | DatabaseType.PostgreSQL =>
    match c.postgresql with
    | some pg => decide (pg.connection_pool_size ≠ 0)
    | none => false
  | DatabaseType.TigerBeetle =>
    match c.tigerbeetle with
    | some tb => !tb.cluster_addresses.isEmpty
    | none => false

/-- Spec rule (C8): the required fields of the selected test mode are
present and the mode string is known. -/
def test_mode_fields_ok (w : WorkloadConfig) : Bool :=
  (decide (w.test_mode = "max_throughput") && w.concurrency.isSome) ||
  (decide (w.test_mode = "fixed_rate") && w.target_rate.isSome
    && w.max_concurrency.isSome)

/-- Spec rule (C8): cloud-deployment field constraints. -/
def deployment_fields_ok (d : DeploymentConfig) : Bool :=
  match d.kind with
  | DeploymentType.Cloud => d.num_client_nodes.isSome && d.aws_region.isSome
  | DeploymentType.Local => true

/-- Spec rule (C8): workload value constraints (`num_accounts ≥ 2`,
`test_duration_secs ≥ 1`, amount range ordered, Zipf exponent finite and
non-negative). -/
def workload_values_ok (w : WorkloadConfig) : Bool :=
  decide (2 ≤ w.num_accounts) &&
  decide (1 ≤ w.test_duration_secs) &&
  decide (w.min_transfer_amount ≤ w.max_transfer_amount) &&
  !w.zipfian_exponent.lt_zero &&
  !w.zipfian_exponent.is_nan &&
  !w.zipfian_exponent.is_infinite

/-- Spec rule (C8): coordinator field constraints. -/
def coordinator_fields_ok (co : CoordinatorConfig) : Bool :=
  !co.max_variance_threshold.is_nan &&
  !co.max_variance_threshold.is_infinite &&
  decide (1 ≤ co.test_runs)

/-- C8 spec side: a configuration violates no stated rule. -/
def spec_config_valid (c : Config) : Bool :=
  test_mode_fields_ok c.workload &&
  database_section_ok c &&
  deployment_fields_ok c.deployment &&
  workload_values_ok c.workload &&
  coordinator_fields_ok c.coordinator

lemma testMode_ok_iff (w : WorkloadConfig) :
    (∃ tm, w.testMode = Except.ok tm) ↔ test_mode_fields_ok w = true := by
  have hne : ("max_throughput" : String) ≠ "fixed_rate" := by decide
  unfold WorkloadConfig.testMode test_mode_fields_ok
  by_cases h1 : w.test_mode = "max_throughput"
  · rw [if_pos h1, h1]
    cases hc : w.concurrency with
    | none => simp [hne]
    | some cv => simp
  · rw [if_neg h1]
    by_cases h2 : w.test_mode = "fixed_rate"
    · rw [if_pos h2, h2]
      cases ht : w.target_rate with
      | none => simp [hne.symm]
      | some tr =>
        cases hm : w.max_concurrency with
        | none => simp [hne.symm]
        | some mc => simp [hne.symm]
    · rw [if_neg h2]
      simp [h1, h2]

lemma validate_database_ok_iff (c : Config) :
    validate_database c = Except.ok () ↔ database_section_ok c = true := by
  unfold validate_database database_section_ok
  cases c.database.kind with
  | PostgreSQL =>
    cases hpg : c.postgresql with
    | none => simp
    | some pg =>
      by_cases hz : pg.connection_pool_size = 0
      · simp [hz]
      · simp [hz]
  | TigerBeetle =>
    cases htb : c.tigerbeetle with
    | none => simp
    | some tb =>
      by_cases hz : tb.cluster_addresses.isEmpty
      · simp [hz]
      · simp [hz]

lemma validate_deployment_ok_iff (c : Config) :
    validate_deployment c = Except.ok ()
      ↔ deployment_fields_ok c.deployment = true := by
  unfold validate_deployment deployment_fields_ok
  cases c.deployment.kind with
  | Local => simp
  | Cloud =>
    cases hn : c.deployment.num_client_nodes with
    | none => simp [hn]
    | some n =>
      cases hr : c.deployment.aws_region with
      | none => simp [hn, hr]
      | some r => simp [hn, hr]

lemma validate_workload_rules_ok_iff (c : Config) :
    validate_workload_rules c = Except.ok ()
      ↔ (workload_values_ok c.workload
          && coordinator_fields_ok c.coordinator) = true := by
  unfold validate_workload_rules workload_values_ok coordinator_fields_ok
  by_cases h1 : c.workload.num_accounts < 2
  · rw [if_pos h1]
    have : ¬ 2 ≤ c.workload.num_accounts := by omega
    simp [this]
  · rw [if_neg h1]
    have g1 : 2 ≤ c.workload.num_accounts := by omega
    by_cases h2 : c.workload.test_duration_secs = 0
    · rw [if_pos h2]
      have : ¬ 1 ≤ c.workload.test_duration_secs := by omega
      simp [this]
    · rw [if_neg h2]
      have g2 : 1 ≤ c.workload.test_duration_secs := by omega
      by_cases h3 : c.workload.min_transfer_amount > c.workload.max_transfer_amount
      · rw [if_pos h3]
        have : ¬ c.workload.min_transfer_amount ≤ c.workload.max_transfer_amount := by
          omega
        simp [this]
      · rw [if_neg h3]
        have g3 : c.workload.min_transfer_amount ≤ c.workload.max_transfer_amount := by
          omega
        by_cases h4 : c.workload.zipfian_exponent.lt_zero = true
        · rw [if_pos h4]; simp [h4, g1, g2, g3]
        · rw [if_neg h4]
          by_cases h5 : (c.workload.zipfian_exponent.is_nan
              || c.workload.zipfian_exponent.is_infinite) = true
          · rw [if_pos h5]
            rcases Bool.or_eq_true_iff.mp h5 with h5a | h5b
            · simp [h5a]
            · simp [h5b]
          · rw [if_neg h5]
            simp only [Bool.or_eq_true, not_or, Bool.not_eq_true] at h5
            by_cases h6 : (c.coordinator.max_variance_threshold.is_nan
                || c.coordinator.max_variance_threshold.is_infinite) = true
            · rw [if_pos h6]
              rcases Bool.or_eq_true_iff.mp h6 with h6a | h6b
              · simp [h6a]
              · simp [h6b]
            · rw [if_neg h6]
              simp only [Bool.or_eq_true, not_or, Bool.not_eq_true] at h6
              by_cases h7 : c.coordinator.test_runs = 0
              · rw [if_pos h7]
                have : ¬ 1 ≤ c.coordinator.test_runs := by omega
                simp [this]
              · rw [if_neg h7]
                have g7 : 1 ≤ c.coordinator.test_runs := by omega
                simp only [Bool.not_eq_true] at h4
                simp [g1, g2, g3, h4, g7, h5.1, h5.2, h6.1, h6.2]

/-- C8: `Config::validate` returns `Ok` if and only if none of the stated
rules is violated: the backend sub-section required by `database.type` is
present (with nonzero pool size / nonempty address list), the required
fields of the selected (known) test mode are present, the cloud-deployment
and coordinator field constraints hold, `num_accounts ≥ 2`,
`test_duration_secs ≥ 1`, `min_transfer_amount ≤ max_transfer_amount`, and
`zipfian_exponent` is finite and non-negative. -/
theorem config_validate_iff (c : Config) :
    Config.validate c = Except.ok () ↔ spec_config_valid c = true := by
  unfold Config.validate spec_config_valid
  cases htm : c.workload.testMode with
  | error e =>
    have hko : test_mode_fields_ok c.workload = false := by
      cases hb : test_mode_fields_ok c.workload with
      | false => rfl
      | true =>
        obtain ⟨tm, htm2⟩ := (testMode_ok_iff c.workload).mpr hb
        rw [htm] at htm2
        exact Except.noConfusion htm2
    simp [hko]
  | ok tm =>
    have hko : test_mode_fields_ok c.workload = true :=
      (testMode_ok_iff c.workload).mp ⟨tm, htm⟩
    rw [hko]
    cases hdb : validate_database c with
    | error e =>
      have hb : database_section_ok c = false := by
        cases hbb : database_section_ok c with
        | false => rfl
        | true =>
          have := (validate_database_ok_iff c).mpr hbb
          rw [hdb] at this
          exact Except.noConfusion this
      simp [hb]
    | ok u =>
      cases u
      have hb : database_section_ok c = true := (validate_database_ok_iff c).mp hdb
      rw [hb]
      cases hdep : validate_deployment c with
      | error e =>
        have hd : deployment_fields_ok c.deployment = false := by
          cases hbb : deployment_fields_ok c.deployment with
          | false => rfl
          | true =>
            have := (validate_deployment_ok_iff c).mpr hbb
            rw [hdep] at this
            exact Except.noConfusion this
        simp [hd]
      | ok u =>
        cases u
        have hd : deployment_fields_ok c.deployment = true :=
          (validate_deployment_ok_iff c).mp hdep
        rw [hd]
        simp only [Bool.true_and]
        exact validate_workload_rules_ok_iff c

/-- A concrete configuration mirroring the repository's `test_config()`
fixture (config.rs:276-323). -/
def exampleConfig : Config :=
  { workload :=
      { test_mode := "max_throughput"
        concurrency := some 10
        target_rate := none
        max_concurrency := none
        num_accounts := 100000
        zipfian_exponent := F64.finite 1
        initial_balance := 1000000
        min_transfer_amount := 1
        max_transfer_amount := 1000
        warmup_duration_secs := 120
        test_duration_secs := 300 }
    database := { kind := DatabaseType.PostgreSQL }
    postgresql := some
      { isolation_level := IsolationLevel.ReadCommitted
        connection_pool_size := 20
        connection_pool_min_idle := some 20
        batched_mode := false }
    tigerbeetle := none
    deployment :=
      { kind := DeploymentType.Local
        num_db_nodes := 1
        num_client_nodes := none
        aws_region := none
        db_instance_type := none
        client_instance_type := none
        measure_network_latency := false }
    coordinator :=
      { test_runs := 3
        max_variance_threshold := F64.finite (1 / 10)
        max_error_rate := F64.finite (1 / 20)
        metrics_export_path := "./results"
        keep_grafana_running := false }
    monitoring :=
      { grafana_port := 3000
        prometheus_port := 9090
        otel_collector_port := 4317 } }

/-- Witness for C8 at the concrete valid configuration. -/
theorem config_validate_iff_witness :
    spec_config_valid exampleConfig = true ∧
      Config.validate exampleConfig = Except.ok () :=
  ⟨by decide, (config_validate_iff exampleConfig).mpr (by decide)⟩

end TbPerf
